import Mathlib

/-!
Verification of `eventually/src/optional.rs`: the `Option`-state aggregate
and command-handler traits and their adapters to the foundational
`aggregate::Aggregate` / `command::Handler` contracts.

Shallow embedding: Rust traits become structures of functions, `Result<T, E>`
becomes `Except E T`, `Option` states stay `Option`, and the `async` command
handler is modelled by the value of its eventual result (suspension itself is
not observable at this level). Each definition is translated directly from
the Rust source.
-/

namespace Optional

/-- The `optional::Aggregate` trait (src/eventually/src/optional.rs:138-172):
a state-transition variant split into a bootstrap operation `apply_first`
(state not yet present) and a continuation operation `apply_next`
(state already present). Both return unwrapped state or a domain error. -/
structure Aggregate (State : Type) (Event : Type) (Error : Type) where
  apply_first : Event → Except Error State
  apply_next : State → Event → Except Error State

/-- The `optional::CommandHandler` trait (src/eventually/src/optional.rs:23-81):
a command-handling variant split into `handle_first` (no prior state) and
`handle_next` (prior state present, received by read-only reference).
The `async` methods are modelled by their eventual result values. -/
structure CommandHandler (Command : Type) (State : Type) (Event : Type) (Error : Type) where
  handle_first : Command → Except Error Event
  handle_next : State → Command → Except Error Event

namespace AsAggregate

/-- `AsAggregate::apply` (src/eventually/src/optional.rs:234-239):

```
fn apply(state: Self::State, event: Self::Event) -> Result<Self::State, Self::Error> {
    Ok(Some(match state {
        None => A::apply_first(event)?,
        Some(state) => A::apply_next(state, event)?,
    }))
}
```

The `?` operator short-circuits on error, which `do`-notation bind mirrors
exactly; on success the unwrapped state is re-wrapped in `Some`. -/
def apply {State Event Error : Type} (A : Aggregate State Event Error)
    (state : Option State) (event : Event) : Except Error (Option State) := do
  let s ← match state with
    | none => A.apply_first event
    | some s => A.apply_next s event
  pure (some s)

/-- One record of which split operation the adapter invoked, with its
arguments; used to instrument `apply` and observe its dispatch. -/
inductive Call (State : Type) (Event : Type) where
  | first (event : Event)
  | next (state : State) (event : Event)
deriving DecidableEq

/-- `apply` instrumented with a trace of the split-operation invocations it
performs. Same dispatch `match` as `apply` (src/eventually/src/optional.rs:235-238);
each branch additionally records its single call. The projection to the
first component is proved equal to `apply` in the theorems below. -/
def applyTraced {State Event Error : Type} (A : Aggregate State Event Error)
    (state : Option State) (event : Event) :
    Except Error (Option State) × List (Call State Event) :=
  match state with
  | none => ((A.apply_first event).map some, [Call.first event])
  | some s => ((A.apply_next s event).map some, [Call.next s event])

/-- Folding a sequence of events through `AsAggregate::apply`, the way an
external dispatcher reconstructs state (spec §2): each successful result
feeds the next application; any error short-circuits. -/
def applyAll {State Event Error : Type} (A : Aggregate State Event Error) :
    Option State → List Event → Except Error (Option State)
  | st, [] => Except.ok st
  | st, e :: es => (apply A st e).bind (fun st2 => applyAll A st2 es)

/-- A caller that holds an optional state, invokes `AsAggregate::apply`, and
keeps its previous state value on failure: returns the state it holds after
the call together with the error, if any. Models re-reading the caller's
state after a failed call. -/
def tryApply {State Event Error : Type} (A : Aggregate State Event Error)
    (st : Option State) (e : Event) : Option State × Option Error :=
  match apply A st e with
  | Except.ok st2 => (st2, none)
  | Except.error err => (st, some err)

/-- Two invocations of `AsAggregate::apply` on identical inputs, modelling a
caller that calls the adapter twice with the same pair. -/
def applyTwice {State Event Error : Type} (A : Aggregate State Event Error)
    (st : Option State) (e : Event) :
    Except Error (Option State) × Except Error (Option State) :=
  (apply A st e, apply A st e)

end AsAggregate

namespace AsHandler

/-- `AsHandler::handle` (src/eventually/src/optional.rs:103-113):

```
async fn handle(&self, state: &StateOf, command: Command) -> Result<EventOf, Error> {
    match state {
        None => self.0.handle_first(command),
        Some(state) => self.0.handle_next(state, command),
    }
    .await
}
```

Dispatches on the optional state and returns the chosen operation's result
unchanged. -/
def handle {Command State Event Error : Type}
    (H : CommandHandler Command State Event Error)
    (state : Option State) (command : Command) : Except Error Event :=
  match state with
  | none => H.handle_first command
  | some s => H.handle_next s command

/-- One record of which split handling operation the adapter invoked. -/
inductive Call (State : Type) (Command : Type) where
  | first (command : Command)
  | next (state : State) (command : Command)
deriving DecidableEq

/-- `handle` instrumented with a trace of split-operation invocations; same
dispatch `match` as `handle` (src/eventually/src/optional.rs:108-111). -/
def handleTraced {Command State Event Error : Type}
    (H : CommandHandler Command State Event Error)
    (state : Option State) (command : Command) :
    Except Error Event × List (Call State Command) :=
  match state with
  | none => (H.handle_first command, [Call.first command])
  | some s => (H.handle_next s command, [Call.next s command])

end AsHandler

/-- The documented example aggregate state (src/eventually/src/optional.rs:185-188):
`struct SomeState {}` with no fields, deriving `PartialEq`. -/
structure SomeState where
deriving DecidableEq

/-- The documented example event (src/eventually/src/optional.rs:181-183):
`enum SomeEvent { Happened }`. -/
inductive SomeEvent where
  | Happened
deriving DecidableEq

/-- The documented example implementation (src/eventually/src/optional.rs:190-207):
`apply_first` ignores the event and returns `Ok(SomeState {})`; `apply_next`
returns the received state unchanged. `std::convert::Infallible` is the
uninhabited type, embedded as `Empty`. -/
def SomeAggregate : Aggregate SomeState SomeEvent Empty where
  apply_first _ := Except.ok SomeState.mk
  apply_next s _ := Except.ok s

/-- A small concrete aggregate used to exercise the failure paths of the
adapter in witnesses: states and events are numbers, event `0` is rejected
by both operations with a validation error, any other event is added to the
running total (bootstrap starts the total at the event value). -/
def CounterAggregate : Aggregate Nat Nat String where
  apply_first e := if e = 0 then Except.error "invalid event" else Except.ok e
  apply_next s e := if e = 0 then Except.error "invalid event" else Except.ok (s + e)

end Optional

open Optional

/- ------------------------------------------------------------------ -/
/- Helper lemmas shared by several claim theorems.                     -/
/- ------------------------------------------------------------------ -/

/-- Any successful result of `AsAggregate::apply` is wrapped in `some`:
both branches of the dispatch re-wrap the unwrapped variant result. -/
theorem apply_ok_isSome_aux {State Event Error : Type}
    (A : Aggregate State Event Error) (st : Option State) (e : Event)
    (r : Option State) (h : AsAggregate.apply A st e = Except.ok r) :
    r.isSome = true := by
  cases st with
  | none =>
    unfold AsAggregate.apply at h
    cases hf : A.apply_first e with
    | ok s => simp [hf] at h; simp [← h]
    | error err => simp [hf] at h
  | some s0 =>
    unfold AsAggregate.apply at h
    cases hf : A.apply_next s0 e with
    | ok s => simp [hf] at h; simp [← h]
    | error err => simp [hf] at h

/- ------------------------------------------------------------------ -/
/- Claim theorems.                                                     -/
/- ------------------------------------------------------------------ -/

/-- C1: for every event `e`, `AsAggregate::apply(None, e)` returns
`Ok(Some(s))` exactly when `apply_first(e)` returns `Ok(s)`, and the
instrumented adapter shows the absent branch performs exactly the one call
`apply_first(e)` — it never invokes `apply_next` on an absent input. -/
theorem C1_apply_absent_bootstrap {State Event Error : Type}
    (A : Aggregate State Event Error) (e : Event) :
    (∀ s : State,
      AsAggregate.apply A none e = Except.ok (some s) ↔
        A.apply_first e = Except.ok s) ∧
    (AsAggregate.applyTraced A none e).2 = [AsAggregate.Call.first e] ∧
    (AsAggregate.applyTraced A none e).1 = AsAggregate.apply A none e := by
  refine ⟨fun s => ?_, rfl, ?_⟩
  · cases hf : A.apply_first e with
    | ok s0 =>
      simp [AsAggregate.apply, hf]
    | error err =>
      simp [AsAggregate.apply, hf]
  · cases hf : A.apply_first e with
    | ok s0 => simp [AsAggregate.apply, AsAggregate.applyTraced, Except.map, hf]
    | error err => simp [AsAggregate.apply, AsAggregate.applyTraced, Except.map, hf]

/-- C2: for every state `s` and event `e`, `AsAggregate::apply(Some(s), e)`
returns `Ok(Some(s2))` exactly when `apply_next(s, e)` returns `Ok(s2)`,
and the instrumented adapter shows the present branch performs exactly the
one call `apply_next(s, e)` — it never invokes `apply_first` on a present
input. -/
theorem C2_apply_present_continuation {State Event Error : Type}
    (A : Aggregate State Event Error) (s : State) (e : Event) :
    (∀ s2 : State,
      AsAggregate.apply A (some s) e = Except.ok (some s2) ↔
        A.apply_next s e = Except.ok s2) ∧
    (AsAggregate.applyTraced A (some s) e).2 = [AsAggregate.Call.next s e] ∧
    (AsAggregate.applyTraced A (some s) e).1 = AsAggregate.apply A (some s) e := by
  refine ⟨fun s2 => ?_, rfl, ?_⟩
  · cases hf : A.apply_next s e with
    | ok s0 => simp [AsAggregate.apply, hf]
    | error err => simp [AsAggregate.apply, hf]
  · cases hf : A.apply_next s e with
    | ok s0 => simp [AsAggregate.apply, AsAggregate.applyTraced, Except.map, hf]
    | error err => simp [AsAggregate.apply, AsAggregate.applyTraced, Except.map, hf]

/-- C3: `AsHandler::handle` dispatches an absent state to
`handle_first(command)` and a present state `Some(s)` to
`handle_next(s, command)`, returning that operation's result unchanged;
the instrumented adapter records exactly one variant call on every input,
so there is no third dispatch path. -/
theorem C3_handle_dispatch {Command State Event Error : Type}
    (H : CommandHandler Command State Event Error) (c : Command) :
    (AsHandler.handle H none c = H.handle_first c) ∧
    (∀ s : State, AsHandler.handle H (some s) c = H.handle_next s c) ∧
    (AsHandler.handleTraced H none c).2 = [AsHandler.Call.first c] ∧
    (∀ s : State,
      (AsHandler.handleTraced H (some s) c).2 = [AsHandler.Call.next s c]) ∧
    (∀ st : Option State,
      (AsHandler.handleTraced H st c).1 = AsHandler.handle H st c) := by
  refine ⟨rfl, fun s => rfl, rfl, fun s => rfl, fun st => ?_⟩
  cases st <;> rfl

/-- C4: both adapters are error-transparent — on every input the adapter
fails with error `err` exactly when the dispatched variant operation fails
with the identical error `err`, with no translation, wrapping, or
suppression. -/
theorem C4_adapters_error_transparent {State Event Error Command CState CEvent CError : Type}
    (A : Aggregate State Event Error) (e : Event)
    (H : CommandHandler Command CState CEvent CError) (c : Command) :
    (∀ err : Error,
      AsAggregate.apply A none e = Except.error err ↔
        A.apply_first e = Except.error err) ∧
    (∀ (s : State) (err : Error),
      AsAggregate.apply A (some s) e = Except.error err ↔
        A.apply_next s e = Except.error err) ∧
    (∀ err : CError,
      AsHandler.handle H none c = Except.error err ↔
        H.handle_first c = Except.error err) ∧
    (∀ (s : CState) (err : CError),
      AsHandler.handle H (some s) c = Except.error err ↔
        H.handle_next s c = Except.error err) := by
  refine ⟨fun err => ?_, fun s err => ?_, fun err => Iff.rfl, fun s err => Iff.rfl⟩
  · cases hf : A.apply_first e with
    | ok s0 => simp [AsAggregate.apply, hf]
    | error err0 => simp [AsAggregate.apply, hf]
  · cases hf : A.apply_next s e with
    | ok s0 => simp [AsAggregate.apply, hf]
    | error err0 => simp [AsAggregate.apply, hf]

/-- C5: a successful transition through the adapter never yields an absent
result — whenever `AsAggregate::apply` returns `Ok(r)`, `r` is `Some(_)`. -/
theorem C5_apply_ok_never_absent {State Event Error : Type}
    (A : Aggregate State Event Error) (st : Option State) (e : Event)
    (r : Option State) (h : AsAggregate.apply A st e = Except.ok r) :
    r.isSome = true :=
  apply_ok_isSome_aux A st e r h

/-- Witness for C5 at a concrete input: the documented example aggregate,
applied from the absent state, succeeds with a present result. -/
theorem C5_apply_ok_never_absent_witness :
    (Option.some SomeState.mk).isSome = true :=
  C5_apply_ok_never_absent SomeAggregate none SomeEvent.Happened
    (some SomeState.mk) rfl

/-- C6: monotonic non-regression — starting from a present state, any
sequence of events whose successive `AsAggregate::apply` steps all succeed
ends in a present state; no successful transition sequence returns a
present entity to absent. -/
theorem C6_present_monotone {State Event Error : Type}
    (A : Aggregate State Event Error) (s : State) (es : List Event)
    (r : Option State)
    (h : AsAggregate.applyAll A (some s) es = Except.ok r) :
    r.isSome = true := by
  induction es generalizing s r with
  | nil =>
    unfold AsAggregate.applyAll at h
    simp at h
    simp [← h]
  | cons e es ih =>
    unfold AsAggregate.applyAll at h
    cases hstep : AsAggregate.apply A (some s) e with
    | ok st2 =>
      rw [hstep] at h
      simp [Except.bind] at h
      have hsome : st2.isSome = true := apply_ok_isSome_aux A (some s) e st2 hstep
      cases st2 with
      | none => simp at hsome
      | some s2 => exact ih s2 r h
    | error err =>
      rw [hstep] at h
      simp [Except.bind] at h

/-- Witness for C6 at a concrete input: the counter aggregate stepped from
`some 0` through the events `[1, 2]` reaches the present state `some 3`. -/
theorem C6_present_monotone_witness :
    (Option.some (3 : Nat)).isSome = true :=
  C6_present_monotone CounterAggregate 0 [1, 2] (some 3) rfl

/-- C7: atomicity on failure — a caller holding an optional state that
invokes `AsAggregate::apply` and fails re-reads its previous state value
unchanged: whenever `tryApply` reports an error, the state it holds after
the call equals the state it held before. -/
theorem C7_failure_preserves_state {State Event Error : Type}
    (A : Aggregate State Event Error) (st : Option State) (e : Event)
    (err : Error) (h : (AsAggregate.tryApply A st e).2 = some err) :
    (AsAggregate.tryApply A st e).1 = st := by
  unfold AsAggregate.tryApply at h ⊢
  cases happly : AsAggregate.apply A st e with
  | ok st2 => rw [happly] at h; simp at h
  | error err0 => rfl

/-- Witness for C7 at a concrete input: the counter aggregate rejects the
malformed event `0` from the present state `some 5`, and the caller
re-reads `some 5` unchanged. -/
theorem C7_failure_preserves_state_witness :
    (AsAggregate.tryApply CounterAggregate (some 5) 0).1 = some 5 :=
  C7_failure_preserves_state CounterAggregate (some 5) 0 "invalid event"
    (by decide)

/-- C8: determinism — `AsAggregate::apply` is purely a function of its two
arguments; two calls with identical inputs, modelled by `applyTwice`,
produce identical outputs. The absence of hidden counters or side state is
captured by the adapter being embeddable as this pure function of
`(state, event)` alone. -/
theorem C8_apply_deterministic {State Event Error : Type}
    (A : Aggregate State Event Error) (st : Option State) (e : Event) :
    (AsAggregate.applyTwice A st e).1 = (AsAggregate.applyTwice A st e).2 :=
  rfl

/-- C9: totality of the adapter dispatch — on every optional state both
instrumented adapters compute the same result as the real adapters, cover
exactly the two constructors `none` and `some` (the recorded trace is
determined by which constructor the input is), and perform exactly one
variant-operation call per invocation. Both adapters are total Lean
functions, so they introduce no partiality beyond the variant operations
they wrap. -/
theorem C9_adapters_total_single_dispatch
    {State Event Error Command CState CEvent CError : Type}
    (A : Aggregate State Event Error) (st : Option State) (e : Event)
    (H : CommandHandler Command CState CEvent CError)
    (cst : Option CState) (c : Command) :
    ((AsAggregate.applyTraced A st e).1 = AsAggregate.apply A st e) ∧
    ((AsAggregate.applyTraced A st e).2 =
      match st with
      | none => [AsAggregate.Call.first e]
      | some s => [AsAggregate.Call.next s e]) ∧
    ((AsAggregate.applyTraced A st e).2.length = 1) ∧
    ((AsHandler.handleTraced H cst c).1 = AsHandler.handle H cst c) ∧
    ((AsHandler.handleTraced H cst c).2 =
      match cst with
      | none => [AsHandler.Call.first c]
      | some s => [AsHandler.Call.next s c]) ∧
    ((AsHandler.handleTraced H cst c).2.length = 1) := by
  refine ⟨?_, ?_, ?_, ?_, ?_, ?_⟩
  · cases st with
    | none =>
      cases hf : A.apply_first e with
      | ok s0 => simp [AsAggregate.apply, AsAggregate.applyTraced, Except.map, hf]
      | error err => simp [AsAggregate.apply, AsAggregate.applyTraced, Except.map, hf]
    | some s =>
      cases hf : A.apply_next s e with
      | ok s0 => simp [AsAggregate.apply, AsAggregate.applyTraced, Except.map, hf]
      | error err => simp [AsAggregate.apply, AsAggregate.applyTraced, Except.map, hf]
  · cases st <;> rfl
  · cases st <;> rfl
  · cases cst <;> rfl
  · cases cst <;> rfl
  · cases cst <;> rfl

/-- C10: the documented example — for the implementation whose `apply_first`
ignores its event and returns `Ok(SomeState {})`, calling
`AsAggregate::<SomeAggregate>::apply(None, SomeEvent::Happened)` returns
`Ok(Some(SomeState {}))`: the bootstrap result comes back wrapped as
present. -/
theorem C10_doc_example :
    AsAggregate.apply SomeAggregate none SomeEvent.Happened =
      Except.ok (some SomeState.mk) :=
  rfl
